import Mathlib

/-!
Shallow embedding of src/index.js of the express-yt-dlp repository.

The source file contains two variants of the server:
the first variant (single-URL handler, lines 1-261) and the second variant
(multi-URL handler, lines 261-533). Shared helpers (calculateBackoff, updateIP,
deleteOldFiles, getFiles, getStatsForFiles, deleteFiles) are textually identical
between the two variants and are embedded once. Where the variants differ
(the request handler, the download callback, the zip logging) both are embedded,
the second variant under the plain name and the first under a V1 suffix.

Modelling conventions:
  - JS numbers that only ever hold machine-integer values in the source
    (exit codes, failure counts, delays, byte counts) are Nat; timestamps
    (Date.now, stats.birthtimeMs) are Int so that age subtraction is exact.
  - Asynchronous effects are explicit inputs: a subprocess is represented by
    its observable outcome (exit code, stdout chunks, stderr text), the
    filesystem by listing/stat/unlink oracles, the network probe and the DNS
    update call by their outcomes. A rejected promise that escapes a function
    is represented by an Option result of none.
  - path.join is modelled as concatenation with a slash separator, which is
    its behaviour on the directory/filename pairs the program builds.
-/

namespace ExpressYtDlp

/-- VALID_FORMATS = Object.keys(formats), src/index.js lines 15-20. -/
def VALID_FORMATS : List String := ["audio", "video"]

/-- formats mapping from format name to the yt-dlp format selector. -/
def formats (f : String) : Option String :=
  if f = "audio" then some "bestaudio"
  else if f = "video" then some "bv+ba/b"
  else none

/-- DEFAULT_OPTIONS.outputDirectory, src/index.js lines 21-24. -/
def defaultOutputDirectory : String := "/home/ubuntu/downloads"

/-- DEFAULT_OPTIONS.format, src/index.js lines 21-24. -/
def defaultFormat : String := "audio"

/-- helpText served with a 400 when no url parameter is given
(punctuation-only quoting elided from the source string). -/
def helpText : String := "This tool can be used to download media."

/-- path.join on a directory and a file name, as used at lines 40 and 449. -/
def pathJoin (directory file : String) : String := directory ++ "/" ++ file

/-! ## calculateBackoff (lines 220-222 and 492-494, identical in both variants)

JS: Math.max(min, Math.min(max, (2 ** failCount - 1) * 500)). All values are
nonnegative integers, so Nat models the arithmetic exactly. -/

/-- calculateBackoff(failCount, min = 5000, max = 60000), src/index.js 492-494. -/
def calculateBackoff (failCount : Nat) (minDelay : Nat := 5000) (maxDelay : Nat := 60000) : Nat :=
  max minDelay (min maxDelay ((2 ^ failCount - 1) * 500))

/-- Modelled from the spec: the clamp operation named in the spec formula
delay = clamp(min, max, (2 to the failureCount, minus 1) times 500ms). -/
def clampSpec (lo hi x : Nat) : Nat := max lo (min hi x)

/-! ## HeartbeatUpdater: updateIP / scheduleUpdate / updateDdns (lines 496-526)

One cycle of updateIP is a function of the state carried in its parameters
(previousIP, bounds, failCount) and of the outcomes of the two external calls:
  - probeResult: some newIP when getIP resolves with newIP, none when getIP
    rejects. getIP is awaited OUTSIDE the try/catch, so a probe failure
    escapes the async function and nothing is rescheduled.
  - publishFetchOk / publishErrCount: whether the fetch inside updateDdns
    resolves, and the ErrCount field parsed from its XML body. updateDdns
    rejects when the fetch rejects or when ErrCount is nonzero (truthy). -/

/-- updateDdns succeeds iff its HTTP call resolves and the parsed ErrCount
field of the interface-response is falsy (zero / absent), lines 474-490. -/
def updateDdns (publishFetchOk : Bool) (publishErrCount : Nat) : Bool :=
  publishFetchOk && publishErrCount == 0

/-- Arguments of the next updateIP call scheduled by setTimeout. -/
structure ScheduledCycle where
  ip : Option String
  failCount : Nat
  delayMilliseconds : Nat
deriving DecidableEq

/-- scheduleUpdate(isFailure), lines 499-507: on failure carry the previous
last-published ip and increment the failure count; otherwise carry the newly
probed ip and reset the count to zero; delay via calculateBackoff. -/
def scheduleUpdate (previousIP : Option String) (failCount : Nat) (newIP : String)
    (minDelay maxDelay : Nat) (isFailure : Bool) : ScheduledCycle :=
  { ip := if isFailure then previousIP else some newIP
    failCount := if isFailure then failCount + 1 else 0
    delayMilliseconds :=
      calculateBackoff (if isFailure then failCount + 1 else 0) minDelay maxDelay }

/-- Observable outcome of one updateIP cycle. next = none means the cycle
threw before reaching any scheduleUpdate call, so no further cycle runs. -/
structure HeartbeatCycle where
  publishAttempted : Bool
  publishSucceeded : Bool
  next : Option ScheduledCycle
deriving DecidableEq

/-- One cycle of updateIP(previousIP, min, max, failCount), lines 496-526.
previousIP = none models the initial null argument; newIP === previousIP is
string-vs-null comparison, hence previousIP = some newIP. -/
def updateIP (previousIP : Option String) (minDelay maxDelay failCount : Nat)
    (probeResult : Option String) (publishFetchOk : Bool) (publishErrCount : Nat) :
    HeartbeatCycle :=
  match probeResult with
  | none => { publishAttempted := false, publishSucceeded := false, next := none }
  | some newIP =>
    if previousIP = some newIP then
      { publishAttempted := false, publishSucceeded := false
        next := some (scheduleUpdate previousIP failCount newIP minDelay maxDelay false) }
    else if updateDdns publishFetchOk publishErrCount then
      { publishAttempted := true, publishSucceeded := true
        next := some (scheduleUpdate previousIP failCount newIP minDelay maxDelay false) }
    else
      { publishAttempted := true, publishSucceeded := false
        next := some (scheduleUpdate previousIP failCount newIP minDelay maxDelay true) }

/-! ## Theorems for claims C6, C3, C7 -/

/-- Claim C6: calculateBackoff(failCount, min, max) equals
clamp(min, max, (2 ^ failCount - 1) * 500); for min less-or-equal max it is
monotonically non-decreasing in failCount and always lies in [min, max], with
calculateBackoff 0 = 5000, calculateBackoff 1 = 5000 (500 clamped up) and
calculateBackoff 10 = 60000 at min = 5000, max = 60000. -/
theorem calculateBackoffSpec (minDelay maxDelay f g : Nat)
    (hmm : minDelay ≤ maxDelay) (hfg : f ≤ g) :
    calculateBackoff f minDelay maxDelay = clampSpec minDelay maxDelay ((2 ^ f - 1) * 500) ∧
    calculateBackoff f minDelay maxDelay ≤ calculateBackoff g minDelay maxDelay ∧
    minDelay ≤ calculateBackoff f minDelay maxDelay ∧
    calculateBackoff f minDelay maxDelay ≤ maxDelay ∧
    calculateBackoff 0 5000 60000 = 5000 ∧
    calculateBackoff 1 5000 60000 = 5000 ∧
    calculateBackoff 10 5000 60000 = 60000 := by
  refine ⟨rfl, ?_, le_max_left _ _, ?_, by decide, by decide, by decide⟩
  · have h1 : (2 ^ f - 1) * 500 ≤ (2 ^ g - 1) * 500 :=
      Nat.mul_le_mul_right 500
        (Nat.sub_le_sub_right (Nat.pow_le_pow_right (by norm_num) hfg) 1)
    exact max_le_max le_rfl (min_le_min le_rfl h1)
  · exact max_le hmm (min_le_left _ _)

/-- Witness for C6 at min = 5000, max = 60000, f = 2, g = 7. -/
theorem calculateBackoffSpecWitness :
    calculateBackoff 2 5000 60000 = clampSpec 5000 60000 ((2 ^ 2 - 1) * 500) ∧
    calculateBackoff 2 5000 60000 ≤ calculateBackoff 7 5000 60000 ∧
    5000 ≤ calculateBackoff 2 5000 60000 ∧
    calculateBackoff 2 5000 60000 ≤ 60000 ∧
    calculateBackoff 0 5000 60000 = 5000 ∧
    calculateBackoff 1 5000 60000 = 5000 ∧
    calculateBackoff 10 5000 60000 = 60000 :=
  calculateBackoffSpec 5000 60000 2 7 (by decide) (by decide)

/-- Claim C3 counterexample: a cycle whose probed address equals the last
published address attempts no publish at all, yet resets the carried failure
count from 3 to 0, refuting that only a successful publish resets the count. -/
theorem failCountResetWithoutPublishCounterexample :
    (updateIP (some "1.2.3.4") 5000 60000 3 (some "1.2.3.4") true 0).publishAttempted
      = false ∧
    (updateIP (some "1.2.3.4") 5000 60000 3 (some "1.2.3.4") true 0).publishSucceeded
      = false ∧
    (updateIP (some "1.2.3.4") 5000 60000 3 (some "1.2.3.4") true 0).next
      = some { ip := some "1.2.3.4", failCount := 0, delayMilliseconds := 5000 } := by
  refine ⟨rfl, rfl, ?_⟩
  simp [updateIP, scheduleUpdate, calculateBackoff]

/-- Claim C3 as amended: the failure count carried into the next cycle is zero
iff the cycle either skipped publishing because the probed address equals the
last published address, or completed a successful publish; only a cycle whose
publish attempt fails carries a nonzero count, incremented by one. -/
theorem failCountResetCharacterization (previousIP : Option String)
    (minDelay maxDelay failCount : Nat) (newIP : String)
    (publishFetchOk : Bool) (publishErrCount : Nat) (sc : ScheduledCycle)
    (h : (updateIP previousIP minDelay maxDelay failCount (some newIP)
            publishFetchOk publishErrCount).next = some sc) :
    (sc.failCount = 0 ↔
      previousIP = some newIP ∨ updateDdns publishFetchOk publishErrCount = true) ∧
    (previousIP ≠ some newIP → updateDdns publishFetchOk publishErrCount = false →
      sc.failCount = failCount + 1) := by
  by_cases hskip : previousIP = some newIP
  · simp only [updateIP, if_pos hskip] at h
    obtain rfl : scheduleUpdate previousIP failCount newIP minDelay maxDelay false = sc :=
      Option.some.inj h
    refine ⟨?_, fun hne _ => absurd hskip hne⟩
    simp [scheduleUpdate, hskip]
  · by_cases hpub : updateDdns publishFetchOk publishErrCount = true
    · simp only [updateIP, if_neg hskip, if_pos hpub] at h
      obtain rfl : scheduleUpdate previousIP failCount newIP minDelay maxDelay false = sc :=
        Option.some.inj h
      refine ⟨?_, fun _ hfail => absurd hpub (by simp [hfail])⟩
      simp [scheduleUpdate, hpub]
    · simp only [updateIP, if_neg hskip, if_pos (Bool.not_eq_true _ ▸ hpub)] at h
      rw [if_neg hpub] at h
      obtain rfl : scheduleUpdate previousIP failCount newIP minDelay maxDelay true = sc :=
        Option.some.inj h
      refine ⟨?_, fun _ _ => by simp [scheduleUpdate]⟩
      simp [scheduleUpdate, hskip, hpub]

/-- Witness for the amended C3 at a concrete failed-publish cycle. -/
theorem failCountResetCharacterizationWitness :
    (({ ip := none, failCount := 3, delayMilliseconds := 5000 } :
        ScheduledCycle).failCount = 0 ↔
      (none : Option String) = some "9.9.9.9" ∨ updateDdns false 0 = true) ∧
    ((none : Option String) ≠ some "9.9.9.9" → updateDdns false 0 = false →
      ({ ip := none, failCount := 3, delayMilliseconds := 5000 } :
        ScheduledCycle).failCount = 2 + 1) :=
  failCountResetCharacterization none 5000 60000 2 "9.9.9.9" false 0
    { ip := none, failCount := 3, delayMilliseconds := 5000 }
    (by simp [updateIP, scheduleUpdate, updateDdns, calculateBackoff])

/-- Claim C7: in every cycle whose publish attempt fails, the address carried
into the next cycle equals the previous last-published address (possibly none),
not the newly probed unpublished address. -/
theorem publishFailureKeepsPreviousAddress (previousIP : Option String)
    (minDelay maxDelay failCount : Nat) (newIP : String)
    (publishFetchOk : Bool) (publishErrCount : Nat)
    (hne : previousIP ≠ some newIP)
    (hfail : updateDdns publishFetchOk publishErrCount = false) :
    ∃ sc, (updateIP previousIP minDelay maxDelay failCount (some newIP)
             publishFetchOk publishErrCount).next = some sc ∧
      (updateIP previousIP minDelay maxDelay failCount (some newIP)
         publishFetchOk publishErrCount).publishAttempted = true ∧
      sc.ip = previousIP ∧ sc.ip ≠ some newIP := by
  refine ⟨scheduleUpdate previousIP failCount newIP minDelay maxDelay true, ?_, ?_, ?_, ?_⟩
  · simp [updateIP, hne, hfail]
  · simp [updateIP, hne, hfail]
  · simp [scheduleUpdate]
  · simpa [scheduleUpdate] using hne

/-- Witness for C7: last published 1.1.1.1, probe yields 2.2.2.2, publish
call rejects; the carried retry address is still 1.1.1.1. -/
theorem publishFailureKeepsPreviousAddressWitness :
    ∃ sc, (updateIP (some "1.1.1.1") 5000 60000 0 (some "2.2.2.2") false 0).next
        = some sc ∧
      (updateIP (some "1.1.1.1") 5000 60000 0 (some "2.2.2.2") false 0).publishAttempted
        = true ∧
      sc.ip = some "1.1.1.1" ∧ sc.ip ≠ some "2.2.2.2" :=
  publishFailureKeepsPreviousAddress (some "1.1.1.1") 5000 60000 0 "2.2.2.2" false 0
    (by decide) (by decide)

/-! ## ArtifactLifecycleManager: deleteFiles / deleteOldFiles (lines 362-369, 414-463)

deleteOldFiles awaits getFiles (readdir) and getStatsForFiles (stat per file,
joined by Promise.all) with no try/catch: a rejection from either escapes the
async function before the setTimeout at line 462 runs, so no next sweep is
scheduled. deleteFiles wraps callback-style unlink and only logs errors, so it
resolves whatever the unlink outcomes are. The recursive setTimeout passes no
arguments, so every rescheduled pass uses the default directory and the
default 86400000 ms retention threshold. -/

/-- deleteFiles, lines 362-369: unlink every path, log failures, never throw.
The result is the set of paths actually removed, given an oracle saying which
unlink calls fail. -/
def deleteFiles (paths : List String) (unlinkFails : String → Bool) : List String :=
  paths.filter (fun p => !unlinkFails p)

/-- getStatsForFiles joined by Promise.all, lines 426-432: the birth time of
every path, or none as soon as any stat rejects. -/
def allStats : List String → (String → Option Int) → Option (List (String × Int))
  | [], _ => some []
  | p :: ps, birth =>
    match birth p, allStats ps birth with
    | some b, some rest => some ((p, b) :: rest)
    | _, _ => none

/-- DEFAULT retention threshold of deleteOldFiles, 24 hours in milliseconds. -/
def DEFAULT_RETENTION_MS : Int := 86400000

/-- Observable outcome of one completed deleteOldFiles pass. -/
structure SweepPass where
  oldFiles : List String
  removed : List String
  nextDirectory : String
  nextMilliseconds : Int
  nextDelay : Nat
deriving DecidableEq

/-- One pass of deleteOldFiles(directory, milliseconds), lines 446-463.
listing is the readdir outcome, birth the per-path stat outcome, unlinkFails
the per-path unlink outcome. Returns none when the pass throws before the
self-rescheduling setTimeout, i.e. when readdir or any stat rejects. -/
def deleteOldFiles (directory : String) (milliseconds now : Int)
    (listing : Option (List String)) (birth : String → Option Int)
    (unlinkFails : String → Bool) : Option SweepPass :=
  match listing with
  | none => none
  | some files =>
    let filepaths := files.map (fun file => pathJoin directory file)
    match allStats filepaths birth with
    | none => none
    | some stats =>
      let oldFiles := (stats.filter (fun fs => decide (milliseconds < now - fs.2))).map
        (fun fs => fs.1)
      some { oldFiles := oldFiles
             removed := deleteFiles oldFiles unlinkFails
             nextDirectory := defaultOutputDirectory
             nextMilliseconds := DEFAULT_RETENTION_MS
             nextDelay := 5000 }

/-- When every stat succeeds, allStats pairs each path with its birth time. -/
theorem allStats_total (b : String → Int) :
    ∀ fps : List String,
      allStats fps (fun q => some (b q)) = some (fps.map (fun q => (q, b q)))
  | [] => rfl
  | p :: ps => by simp [allStats, allStats_total b ps]

/-- If the stat of some listed path rejects, Promise.all rejects. -/
theorem allStats_none (birth : String → Option Int) :
    ∀ fps : List String, ∀ p ∈ fps, birth p = none → allStats fps birth = none := by
  intro fps
  induction fps with
  | nil => intro p hp; simp at hp
  | cons q qs ih =>
    intro p hp hb
    rcases List.mem_cons.mp hp with rfl | hmem
    · simp [allStats, hb]
    · cases hq : birth q <;> simp [allStats, hq, ih p hmem hb]

/-- Filtering the path-stat pairs on their birth time and projecting back to
paths is filtering the paths on their birth time. -/
theorem filterStatsFst (b : String → Int) (c : Int → Bool) :
    ∀ l : List String,
      ((l.map (fun q => (q, b q))).filter (fun fs => c fs.2)).map (fun fs => fs.1)
        = l.filter (fun q => c (b q))
  | [] => rfl
  | p :: ps => by
    by_cases h : c (b p) = true <;>
      simp [List.filter_cons, h, filterStatsFst b c ps]

/-- A pass whose readdir and stats all succeed reduces to a filter on age. -/
theorem deleteOldFiles_total (directory : String) (milliseconds now : Int)
    (files : List String) (b : String → Int) (unlinkFails : String → Bool) :
    deleteOldFiles directory milliseconds now (some files) (fun q => some (b q))
        unlinkFails
      = some { oldFiles := (files.map (fun file => pathJoin directory file)).filter
                 (fun q => decide (milliseconds < now - b q))
               removed := ((files.map (fun file => pathJoin directory file)).filter
                 (fun q => decide (milliseconds < now - b q))).filter
                   (fun p => !unlinkFails p)
               nextDirectory := defaultOutputDirectory
               nextMilliseconds := DEFAULT_RETENTION_MS
               nextDelay := 5000 } := by
  simp only [deleteOldFiles, allStats_total b (files.map (fun file => pathJoin directory file)),
    filterStatsFst b (fun x => decide (milliseconds < now - x))]
  rfl

/-- Claim C8: in every sweep pass (over any directory, threshold and clock)
whose listing and stats succeed, an entry is selected for deletion iff its age
now minus creation time strictly exceeds the threshold, and exactly the
selected entries whose unlink succeeds are removed; younger entries survive
the pass. -/
theorem sweepDeletesIffOlderThanThreshold (directory : String) (milliseconds now : Int)
    (files : List String) (b : String → Int) (unlinkFails : String → Bool) (p : String) :
    ∃ pass, deleteOldFiles directory milliseconds now (some files)
        (fun q => some (b q)) unlinkFails = some pass ∧
      (p ∈ pass.oldFiles ↔
        p ∈ files.map (fun file => pathJoin directory file) ∧ milliseconds < now - b p) ∧
      pass.removed = pass.oldFiles.filter (fun q => !unlinkFails q) := by
  refine ⟨_, deleteOldFiles_total directory milliseconds now files b unlinkFails, ?_, rfl⟩
  simp [List.mem_filter]

/-- Claim C10: every next sweep pass scheduled by a completed pass runs with
the default output directory and the default 24-hour retention threshold,
whatever directory and threshold the completed pass itself received. -/
theorem rescheduledSweepUsesDefaults (directory : String) (milliseconds now : Int)
    (listing : Option (List String)) (birth : String → Option Int)
    (unlinkFails : String → Bool) (pass : SweepPass)
    (h : deleteOldFiles directory milliseconds now listing birth unlinkFails = some pass) :
    pass.nextDirectory = defaultOutputDirectory ∧
    pass.nextMilliseconds = 86400000 ∧ pass.nextDelay = 5000 := by
  match listing with
  | none => simp [deleteOldFiles] at h
  | some files =>
    simp only [deleteOldFiles] at h
    match hst : allStats (files.map (fun file => pathJoin directory file)) birth with
    | none => rw [hst] at h; simp at h
    | some stats =>
      rw [hst] at h
      obtain rfl := Option.some.inj h
      exact ⟨rfl, rfl, rfl⟩

/-- Witness for C10: a pass invoked with a custom directory /tmp and a custom
1 ms threshold still schedules the next pass with the defaults. -/
theorem rescheduledSweepUsesDefaultsWitness :
    ({ oldFiles := [], removed := [], nextDirectory := defaultOutputDirectory,
       nextMilliseconds := DEFAULT_RETENTION_MS, nextDelay := 5000 } :
        SweepPass).nextDirectory = defaultOutputDirectory ∧
    ({ oldFiles := [], removed := [], nextDirectory := defaultOutputDirectory,
       nextMilliseconds := DEFAULT_RETENTION_MS, nextDelay := 5000 } :
        SweepPass).nextMilliseconds = 86400000 ∧
    ({ oldFiles := [], removed := [], nextDirectory := defaultOutputDirectory,
       nextMilliseconds := DEFAULT_RETENTION_MS, nextDelay := 5000 } :
        SweepPass).nextDelay = 5000 :=
  rescheduledSweepUsesDefaults "/tmp" 1 0 (some []) (fun _ => some 0) (fun _ => false)
    { oldFiles := [], removed := [], nextDirectory := defaultOutputDirectory,
      nextMilliseconds := DEFAULT_RETENTION_MS, nextDelay := 5000 } (by rfl)

/-- Claim C2 counterexample: a sweep cycle whose directory listing rejects
schedules no next cycle, and a heartbeat cycle whose address probe rejects
schedules no next cycle, refuting that every cycle reschedules regardless of
which operation fails. -/
theorem loopFailureNotRescheduledCounterexample :
    deleteOldFiles defaultOutputDirectory 86400000 0 none (fun _ => some 0)
        (fun _ => false) = none ∧
    (updateIP none 5000 60000 0 none true 0).next = none :=
  ⟨rfl, rfl⟩

/-- Claim C2 as amended: a sweep cycle whose listing and stats all succeed
always schedules a next cycle (deletion failures never prevent it), and a
heartbeat cycle whose probe succeeds always schedules a next cycle (publish
failures never prevent it); but a sweep cycle whose listing rejects, a sweep
cycle in which some stat of a listed file rejects, and a heartbeat cycle whose
probe rejects each schedule nothing, ending the respective loop. -/
theorem timerLoopsRescheduleAmended :
    (∀ (directory : String) (milliseconds now : Int) (files : List String)
        (b : String → Int) (unlinkFails : String → Bool),
      (deleteOldFiles directory milliseconds now (some files) (fun q => some (b q))
        unlinkFails).isSome) ∧
    (∀ (previousIP : Option String) (minDelay maxDelay failCount : Nat) (newIP : String)
        (publishFetchOk : Bool) (publishErrCount : Nat),
      ((updateIP previousIP minDelay maxDelay failCount (some newIP)
        publishFetchOk publishErrCount).next).isSome) ∧
    (∀ (directory : String) (milliseconds now : Int) (birth : String → Option Int)
        (unlinkFails : String → Bool),
      deleteOldFiles directory milliseconds now none birth unlinkFails = none) ∧
    (∀ (directory : String) (milliseconds now : Int) (files : List String)
        (birth : String → Option Int) (unlinkFails : String → Bool) (f : String),
      f ∈ files → birth (pathJoin directory f) = none →
      deleteOldFiles directory milliseconds now (some files) birth unlinkFails = none) ∧
    (∀ (previousIP : Option String) (minDelay maxDelay failCount : Nat)
        (publishFetchOk : Bool) (publishErrCount : Nat),
      (updateIP previousIP minDelay maxDelay failCount none
        publishFetchOk publishErrCount).next = none) := by
  refine ⟨?_, ?_, fun _ _ _ _ _ => rfl, ?_, fun _ _ _ _ _ _ => rfl⟩
  · intro directory milliseconds now files b unlinkFails
    rw [deleteOldFiles_total]
    rfl
  · intro previousIP minDelay maxDelay failCount newIP publishFetchOk publishErrCount
    by_cases hskip : previousIP = some newIP
    · simp [updateIP, hskip]
    · by_cases hpub : updateDdns publishFetchOk publishErrCount = true <;>
        simp [updateIP, hskip, hpub]
  · intro directory milliseconds now files birth unlinkFails f hf hb
    simp only [deleteOldFiles]
    rw [allStats_none birth (files.map (fun file => pathJoin directory file))
      (pathJoin directory f) (List.mem_map_of_mem _ hf) hb]

/-- Witness for the amended C2: a healthy sweep over one file reschedules even
though its unlink fails, and a stat rejection for the listed file f kills the
pass. -/
theorem timerLoopsRescheduleAmendedWitness :
    (deleteOldFiles "/d" 10 0 (some ["f"]) (fun _ => some 0) (fun _ => true)).isSome ∧
    deleteOldFiles "/d" 10 0 (some ["f"]) (fun _ => none) (fun _ => true) = none :=
  ⟨timerLoopsRescheduleAmended.1 "/d" 10 0 ["f"] (fun _ => 0) (fun _ => true),
   timerLoopsRescheduleAmended.2.2.2.1 "/d" 10 0 ["f"] (fun _ => none) (fun _ => true)
     "f" (by simp) rfl⟩

/-! ## download / zip / request handlers (lines 37-140 and 302-412)

download spawns one yt-dlp subprocess; each stdout data chunk is trimmed and
accumulated; on exit code 0 the promise resolves with the accumulated paths,
otherwise it rejects. stderr is streamed to the server process stderr in both
cases. zip spawns one zip subprocess whose output path is a fresh uuid dot zip
inside the output directory; it resolves with that path on exit code 0 and
rejects otherwise. -/

/-- download resolution value, lines 319-360: the trimmed stdout chunks on
exit code 0, none (rejected promise) on a nonzero exit code. -/
def download (stdoutChunks : List String) (exitCode : Nat) : Option (List String) :=
  if exitCode = 0 then some (stdoutChunks.map (fun s => s.trim)) else none

/-- Output path of the zip subprocess, lines 304-305. -/
def zipOutputPath (outputDirectory uuid : String) : String :=
  pathJoin outputDirectory (uuid ++ ".zip")

/-- zip, lines 302-317: resolves with the archive path on exit code 0,
rejects otherwise. The input paths do not influence the archive path. -/
def zip (_paths : List String) (outputDirectory uuid : String) (exitCode : Nat) :
    Option String :=
  if exitCode = 0 then some (zipOutputPath outputDirectory uuid) else none

/-- createDownloadCallback(paths), line 404 of the second variant: the
transmission-completion callback ignores its error argument and passes paths
to deleteFiles unconditionally. The result is the path list handed to
deleteFiles. -/
def createDownloadCallback (paths : List String) : Option String → List String :=
  fun _err => paths

/-- Response phase of a handler after a successful download. -/
structure ResponsePhase where
  zipInvocations : Nat
  deliverable : Option String
  deletionPaths : List String
deriving DecidableEq

/-- Lines 406-411 (second variant): with more than one path, zip once and
deliver the archive, scheduling the archive and all inputs for deletion; with
at most one path, deliver the single path (if any), scheduling the inputs.
A zip rejection throws out of the handler before res.download, so nothing is
delivered and no deletion callback is installed. -/
def respond (filepaths : List String) (outputDirectory uuid : String) (zipExit : Nat) :
    ResponsePhase :=
  if 1 < filepaths.length then
    match zip filepaths outputDirectory uuid zipExit with
    | some outputPath =>
      { zipInvocations := 1, deliverable := some outputPath,
        deletionPaths := createDownloadCallback (outputPath :: filepaths) none }
    | none => { zipInvocations := 1, deliverable := none, deletionPaths := [] }
  else
    { zipInvocations := 0, deliverable := filepaths.head?,
      deletionPaths := createDownloadCallback filepaths none }

/-- Lines 132-139 (first variant): identical branching, but the downloadCallback
closes over filepaths only, so the archive path is never scheduled for
deletion. -/
def respondV1 (filepaths : List String) (outputDirectory uuid : String) (zipExit : Nat) :
    ResponsePhase :=
  if 1 < filepaths.length then
    match zip filepaths outputDirectory uuid zipExit with
    | some outputPath =>
      { zipInvocations := 1, deliverable := some outputPath,
        deletionPaths := filepaths }
    | none => { zipInvocations := 1, deliverable := none, deletionPaths := [] }
  else
    { zipInvocations := 0, deliverable := filepaths.head?, deletionPaths := filepaths }

/-- Observable outcome of one request handled by the app.get root handler.
serverLog is the diagnostic text written to the server process stderr. -/
structure HandlerResult where
  status : Nat
  body : String
  fetchSpawned : Bool
  serverLog : String
  phase : Option ResponsePhase
deriving DecidableEq

/-- The format validation check of both variants: format is truthy (nonempty
after defaulting) and not in VALID_FORMATS. -/
def formatCheckFails (format : String) : Bool :=
  (!(format == "")) && (!(VALID_FORMATS.contains format))

/-- The post-validation tail shared by the second-variant handler: run
download; on rejection answer 500 with a generic body while the subprocess
stderr goes to the server log; on success run the response phase. A missing
deliverable (zip rejection or an empty path list) escapes to the express
error handler as a 500. -/
def handlerCore (stdoutChunks : List String) (stderrText : String) (fetchExit : Nat)
    (outputDirectory uuid : String) (zipExit : Nat) : HandlerResult :=
  match download stdoutChunks fetchExit with
  | none =>
    { status := 500, body := "Download failed", fetchSpawned := true,
      serverLog := stderrText, phase := none }
  | some filepaths =>
    let ph := respond filepaths outputDirectory uuid zipExit
    match ph.deliverable with
    | some _ =>
      { status := 200, body := "", fetchSpawned := true,
        serverLog := stderrText, phase := some ph }
    | none =>
      { status := 500, body := "", fetchSpawned := true,
        serverLog := stderrText, phase := some ph }

/-- app.get root handler of the second variant, lines 371-412. urls are the
url query parameters, formatParam the format parameter, urlOk whether the URL
constructor accepts a given url string. -/
def handler (urls : List String) (formatParam : Option String) (urlOk : String → Bool)
    (stdoutChunks : List String) (stderrText : String) (fetchExit : Nat)
    (outputDirectory uuid : String) (zipExit : Nat) : HandlerResult :=
  let format := formatParam.getD defaultFormat
  if urls.isEmpty then
    { status := 400, body := helpText, fetchSpawned := false, serverLog := "", phase := none }
  else if formatCheckFails format then
    { status := 400, body := "Invalid format", fetchSpawned := false,
      serverLog := "", phase := none }
  else if !(urls.all urlOk) then
    { status := 400, body := "Invalid URL", fetchSpawned := false,
      serverLog := "", phase := none }
  else
    handlerCore stdoutChunks stderrText fetchExit outputDirectory uuid zipExit

/-- app.get root handler of the first variant, lines 102-140: single url
parameter, and a download rejection is answered 400 Invalid URL. -/
def handlerV1 (url : Option String) (formatParam : Option String) (urlOk : String → Bool)
    (stdoutChunks : List String) (stderrText : String) (fetchExit : Nat)
    (outputDirectory uuid : String) (zipExit : Nat) : HandlerResult :=
  let format := formatParam.getD defaultFormat
  match url with
  | none =>
    { status := 400, body := helpText, fetchSpawned := false, serverLog := "", phase := none }
  | some u =>
    if u = "" then
      { status := 400, body := helpText, fetchSpawned := false, serverLog := "", phase := none }
    else if formatCheckFails format then
      { status := 400, body := "Invalid format.", fetchSpawned := false,
        serverLog := "", phase := none }
    else if !(urlOk u) then
      { status := 400, body := "Invalid URL", fetchSpawned := false,
        serverLog := "", phase := none }
    else
      match download stdoutChunks fetchExit with
      | none =>
        { status := 400, body := "Invalid URL", fetchSpawned := true,
          serverLog := stderrText, phase := none }
      | some filepaths =>
        let ph := respondV1 filepaths outputDirectory uuid zipExit
        match ph.deliverable with
        | some _ =>
          { status := 200, body := "", fetchSpawned := true,
            serverLog := stderrText, phase := some ph }
        | none =>
          { status := 500, body := "", fetchSpawned := true,
            serverLog := stderrText, phase := some ph }

/-- Modelled from the spec: the maximum request size of the admission gate,
2 times 10 to the 10 bytes in the reference configuration (spec section 6). -/
def MAX_REQUEST_SIZE_BYTES : Nat := 20000000000

/-- Modelled from the spec: the admission-gated request path (SizeEstimator
plus AdmissionGate, spec sections 4.1, 4.2 and 6) is not present in
src/index.js, where both handler variants spawn the fetch directly after URL
validation. Per the spec: on valid input the handler obtains an aggregate byte
projection from SizeEstimator (estimation = none models a ProbeFailure, which
is a 500 with no fetch); if the projection exceeds the configured maximum
request size it answers 403 and spawns no fetch subprocess; otherwise it
proceeds exactly as the unguarded second-variant handler does. -/
def gatedHandler (urls : List String) (formatParam : Option String) (urlOk : String → Bool)
    (estimation : Option Nat)
    (stdoutChunks : List String) (stderrText : String) (fetchExit : Nat)
    (outputDirectory uuid : String) (zipExit : Nat) : HandlerResult :=
  let format := formatParam.getD defaultFormat
  if urls.isEmpty then
    { status := 400, body := helpText, fetchSpawned := false, serverLog := "", phase := none }
  else if formatCheckFails format then
    { status := 400, body := "Invalid format", fetchSpawned := false,
      serverLog := "", phase := none }
  else if !(urls.all urlOk) then
    { status := 400, body := "Invalid URL", fetchSpawned := false,
      serverLog := "", phase := none }
  else
    match estimation with
    | none =>
      { status := 500, body := "Size estimation failed", fetchSpawned := false,
        serverLog := "", phase := none }
    | some projection =>
      if MAX_REQUEST_SIZE_BYTES < projection then
        { status := 403, body := "Quota exceeded", fetchSpawned := false,
          serverLog := "", phase := none }
      else
        handlerCore stdoutChunks stderrText fetchExit outputDirectory uuid zipExit

/-! ## Theorems for claims C1, C9, C4, C5 -/

/-- Claim C1: for every valid request whose aggregate size projection exceeds
the configured maximum (20000000000 bytes), the gated handler answers 403 and
spawns no fetch subprocess; the projection is consulted before any fetch. -/
theorem quotaExceededRejectsBeforeFetch (urls : List String) (formatParam : Option String)
    (urlOk : String → Bool) (projection : Nat) (stdoutChunks : List String)
    (stderrText : String) (fetchExit : Nat) (outputDirectory uuid : String) (zipExit : Nat)
    (h1 : urls.isEmpty = false)
    (h2 : formatCheckFails (formatParam.getD defaultFormat) = false)
    (h3 : urls.all urlOk = true)
    (h4 : MAX_REQUEST_SIZE_BYTES < projection) :
    (gatedHandler urls formatParam urlOk (some projection) stdoutChunks stderrText
        fetchExit outputDirectory uuid zipExit).status = 403 ∧
    (gatedHandler urls formatParam urlOk (some projection) stdoutChunks stderrText
        fetchExit outputDirectory uuid zipExit).fetchSpawned = false := by
  simp [gatedHandler, h1, h2, h3, h4]

/-- Witness for C1 at one URL and a 20000000001-byte projection. -/
theorem quotaExceededRejectsBeforeFetchWitness :
    (gatedHandler ["https://example.com/watch"] none (fun _ => true)
        (some 20000000001) [] "" 0 defaultOutputDirectory "u" 0).status = 403 ∧
    (gatedHandler ["https://example.com/watch"] none (fun _ => true)
        (some 20000000001) [] "" 0 defaultOutputDirectory "u" 0).fetchSpawned = false :=
  quotaExceededRejectsBeforeFetch ["https://example.com/watch"] none (fun _ => true)
    20000000001 [] "" 0 defaultOutputDirectory "u" 0 rfl rfl rfl (by decide)

/-- Claim C9: the second-variant response phase invokes zip exactly once iff
the download yielded more than one path; with at most one path no archive is
ever created, and the single path (when present) is the deliverable; with more
than one path and a successful zip the archive is the sole deliverable. -/
theorem archiveIffMultiplePaths (filepaths : List String) (outputDirectory uuid : String)
    (zipExit : Nat) :
    ((respond filepaths outputDirectory uuid zipExit).zipInvocations = 1 ↔
      1 < filepaths.length) ∧
    ((respond filepaths outputDirectory uuid zipExit).zipInvocations = 0 ↔
      filepaths.length ≤ 1) ∧
    (1 < filepaths.length →
      (respond filepaths outputDirectory uuid 0).deliverable
        = some (zipOutputPath outputDirectory uuid)) ∧
    (filepaths.length ≤ 1 →
      (respond filepaths outputDirectory uuid zipExit).deliverable = filepaths.head?) := by
  by_cases h : 1 < filepaths.length
  · refine ⟨?_, ?_, ?_, ?_⟩
    · by_cases hz : zipExit = 0 <;> simp [respond, zip, h, hz]
    · by_cases hz : zipExit = 0 <;> simp [respond, zip, h, hz]
    · intro _; simp [respond, zip, h]
    · intro hle; omega
  · refine ⟨?_, ?_, fun hlt => absurd hlt h, ?_⟩
    · simp [respond, h]
    · simp [respond, h]
      omega
    · intro _; simp [respond, h]

/-- Witness for C9 at two paths with a successful zip and at one path. -/
theorem archiveIffMultiplePathsWitness :
    (1 < (["/a.mp3", "/b.mp3"] : List String).length) ∧
    (respond ["/a.mp3", "/b.mp3"] "/d" "u" 0).deliverable = some (zipOutputPath "/d" "u") ∧
    ((respond ["/a.mp3", "/b.mp3"] "/d" "u" 0).zipInvocations = 1 ↔
      1 < (["/a.mp3", "/b.mp3"] : List String).length) ∧
    (respond ["/c.mp3"] "/d" "u" 0).deliverable = (["/c.mp3"] : List String).head? :=
  ⟨by decide,
   (archiveIffMultiplePaths ["/a.mp3", "/b.mp3"] "/d" "u" 0).2.2.1 (by decide),
   (archiveIffMultiplePaths ["/a.mp3", "/b.mp3"] "/d" "u" 0).1,
   (archiveIffMultiplePaths ["/c.mp3"] "/d" "u" 0).2.2.2 (by decide)⟩

/-- Claim C4 counterexample: in the first variant, a request yielding two
fetched paths creates an archive that is delivered but never scheduled for
deletion, so an artifact of the request remains on disk. -/
theorem archiveNotDeletedV1Counterexample :
    (respondV1 ["/a.mp3", "/b.mp3"] defaultOutputDirectory "u" 0).zipInvocations = 1 ∧
    (respondV1 ["/a.mp3", "/b.mp3"] defaultOutputDirectory "u" 0).deliverable
      = some (zipOutputPath defaultOutputDirectory "u") ∧
    zipOutputPath defaultOutputDirectory "u" ∉
      (respondV1 ["/a.mp3", "/b.mp3"] defaultOutputDirectory "u" 0).deletionPaths := by
  refine ⟨rfl, rfl, ?_⟩
  decide

/-- Claim C4 as amended: the transmission-completion callback schedules its
paths for deletion whatever the transmission outcome; in the second variant
these paths are the archive plus all fetched files (more than one path) or
exactly the fetched files (at most one path); in the first variant they are
always just the fetched files, so a created archive is not scheduled. -/
theorem deletionSchedulingAmended :
    (∀ (paths : List String) (err : Option String),
      createDownloadCallback paths err = paths) ∧
    (∀ (filepaths : List String) (outputDirectory uuid : String),
      1 < filepaths.length →
      (respond filepaths outputDirectory uuid 0).deletionPaths
        = zipOutputPath outputDirectory uuid :: filepaths) ∧
    (∀ (filepaths : List String) (outputDirectory uuid : String) (zipExit : Nat),
      filepaths.length ≤ 1 →
      (respond filepaths outputDirectory uuid zipExit).deletionPaths = filepaths) ∧
    (∀ (filepaths : List String) (outputDirectory uuid : String),
      (respondV1 filepaths outputDirectory uuid 0).deletionPaths = filepaths) := by
  refine ⟨fun _ _ => rfl, ?_, ?_, ?_⟩
  · intro filepaths outputDirectory uuid h
    simp [respond, zip, h, createDownloadCallback]
  · intro filepaths outputDirectory uuid zipExit h
    have h2 : ¬ 1 < filepaths.length := by omega
    simp [respond, h2, createDownloadCallback]
  · intro filepaths outputDirectory uuid
    by_cases h : 1 < filepaths.length <;> simp [respondV1, zip, h]

/-- Witness for the amended C4 at two paths and at one path. -/
theorem deletionSchedulingAmendedWitness :
    createDownloadCallback ["/x.mp3"] (some "transmission error") = ["/x.mp3"] ∧
    (respond ["/a.mp3", "/b.mp3"] "/d" "u" 0).deletionPaths
      = zipOutputPath "/d" "u" :: ["/a.mp3", "/b.mp3"] ∧
    (respond ["/c.mp3"] "/d" "u" 7).deletionPaths = ["/c.mp3"] ∧
    (respondV1 ["/a.mp3", "/b.mp3"] "/d" "u" 0).deletionPaths = ["/a.mp3", "/b.mp3"] :=
  ⟨deletionSchedulingAmended.1 ["/x.mp3"] (some "transmission error"),
   deletionSchedulingAmended.2.1 ["/a.mp3", "/b.mp3"] "/d" "u" (by decide),
   deletionSchedulingAmended.2.2.1 ["/c.mp3"] "/d" "u" 7 (by decide),
   deletionSchedulingAmended.2.2.2 ["/a.mp3", "/b.mp3"] "/d" "u"⟩

/-- Claim C5 counterexample: in the first variant, a request that passes
validation and whose fetch subprocess exits nonzero is answered 400 (with the
misleading body Invalid URL), not 500. -/
theorem fetchFailureV1Status400Counterexample :
    (handlerV1 (some "https://example.com/a") none (fun _ => true) []
        "subprocess diagnostics" 1 defaultOutputDirectory "u" 0).status = 400 ∧
    (handlerV1 (some "https://example.com/a") none (fun _ => true) []
        "subprocess diagnostics" 1 defaultOutputDirectory "u" 0).status ≠ 500 ∧
    (handlerV1 (some "https://example.com/a") none (fun _ => true) []
        "subprocess diagnostics" 1 defaultOutputDirectory "u" 0).body = "Invalid URL" := by
  refine ⟨rfl, by decide, rfl⟩

/-- Claim C5 as amended: in the second (multi-URL) variant every validated
request whose fetch subprocess exits nonzero is answered 500 with the fixed
generic body, while the subprocess stderr goes to the server log only; in the
first (single-URL) variant the same failure is answered 400 Invalid URL, the
stderr still going to the server log only. -/
theorem fetchFailureStatusAmended (urls : List String) (formatParam : Option String)
    (urlOk : String → Bool) (stdoutChunks : List String) (stderrText : String)
    (fetchExit : Nat) (outputDirectory uuid : String) (zipExit : Nat) (u : String)
    (h1 : urls.isEmpty = false)
    (h2 : formatCheckFails (formatParam.getD defaultFormat) = false)
    (h3 : urls.all urlOk = true)
    (h4 : fetchExit ≠ 0)
    (h5 : u ≠ "")
    (h6 : urlOk u = true) :
    (handler urls formatParam urlOk stdoutChunks stderrText fetchExit
        outputDirectory uuid zipExit).status = 500 ∧
    (handler urls formatParam urlOk stdoutChunks stderrText fetchExit
        outputDirectory uuid zipExit).body = "Download failed" ∧
    (handler urls formatParam urlOk stdoutChunks stderrText fetchExit
        outputDirectory uuid zipExit).serverLog = stderrText ∧
    (handlerV1 (some u) formatParam urlOk stdoutChunks stderrText fetchExit
        outputDirectory uuid zipExit).status = 400 ∧
    (handlerV1 (some u) formatParam urlOk stdoutChunks stderrText fetchExit
        outputDirectory uuid zipExit).body = "Invalid URL" ∧
    (handlerV1 (some u) formatParam urlOk stdoutChunks stderrText fetchExit
        outputDirectory uuid zipExit).serverLog = stderrText := by
  constructor
  · simp [handler, h1, h2, h3, handlerCore, download, h4]
  constructor
  · simp [handler, h1, h2, h3, handlerCore, download, h4]
  constructor
  · simp [handler, h1, h2, h3, handlerCore, download, h4]
  constructor
  · simp [handlerV1, h2, h4, h5, h6, download]
  constructor
  · simp [handlerV1, h2, h4, h5, h6, download]
  · simp [handlerV1, h2, h4, h5, h6, download]

/-- Witness for the amended C5 at a concrete validated request whose fetch
exits with code 1. -/
theorem fetchFailureStatusAmendedWitness :
    (handler ["https://example.com/a"] none (fun _ => true) [] "yt-dlp stderr" 1
        defaultOutputDirectory "u" 0).status = 500 ∧
    (handler ["https://example.com/a"] none (fun _ => true) [] "yt-dlp stderr" 1
        defaultOutputDirectory "u" 0).body = "Download failed" ∧
    (handler ["https://example.com/a"] none (fun _ => true) [] "yt-dlp stderr" 1
        defaultOutputDirectory "u" 0).serverLog = "yt-dlp stderr" ∧
    (handlerV1 (some "https://example.com/a") none (fun _ => true) [] "yt-dlp stderr" 1
        defaultOutputDirectory "u" 0).status = 400 ∧
    (handlerV1 (some "https://example.com/a") none (fun _ => true) [] "yt-dlp stderr" 1
        defaultOutputDirectory "u" 0).body = "Invalid URL" ∧
    (handlerV1 (some "https://example.com/a") none (fun _ => true) [] "yt-dlp stderr" 1
        defaultOutputDirectory "u" 0).serverLog = "yt-dlp stderr" :=
  fetchFailureStatusAmended ["https://example.com/a"] none (fun _ => true) []
    "yt-dlp stderr" 1 defaultOutputDirectory "u" 0 "https://example.com/a"
    rfl rfl rfl (by decide) (by decide) rfl

end ExpressYtDlp
